import Mathlib

/-!
# EthaTunnel: verification of the spec against the Go source

Shallow embedding of the EthaTunnel tunnel programs
(`src/network/router.go`, `src/client.go`,
`src/handshake/client/сlientHello.go`,
`src/handshake/ChaCha20/serverHello.go`).

Bytes are modelled as `Nat` (values < 256 where it matters), byte strings
as `List Nat`, and the cryptographic primitives (SHA-256, X25519, HKDF,
ChaCha20-Poly1305) symbolically as a free term algebra, since their
code is an external library: only the data flow of this repository is
verified, not the primitives themselves.
-/

set_option autoImplicit false

namespace EthaTunnel

/-! ## Byte-level encodings (`encoding/binary`) -/

/-- `binary.BigEndian.PutUint32`: 4-byte big-endian encoding of `n`. -/
def be32 (n : Nat) : List Nat :=
  [n / 256 ^ 3 % 256, n / 256 ^ 2 % 256, n / 256 % 256, n % 256]

/-- `binary.BigEndian.Uint32` on a 4-byte buffer: big-endian value of the bytes. -/
def be32val (bs : List Nat) : Nat :=
  bs.foldl (fun a b => a * 256 + b) 0

/-- `binary.BigEndian.PutUint64`: 8-byte big-endian encoding of `n`. -/
def be64 (n : Nat) : List Nat :=
  (List.range 8).map (fun i => n / 256 ^ (7 - i) % 256)

/-- Little-endian byte digits of `n`, `k` bytes, least significant first. -/
def leBytes : Nat → Nat → List Nat
  | 0, _ => []
  | k + 1, n => n % 256 :: leBytes k (n / 256)

/-- Modelled from the spec: the 12-byte AEAD nonce is the 8-byte little-endian
encoding of the counter with the 4 high (trailing) bytes zero (§4.B; the
`ChaCha20.Session` implementation is not under `src/`). -/
def le12 (n : Nat) : List Nat :=
  leBytes 8 n ++ List.replicate 4 0

/-! ## Symbolic cryptographic terms

SHA-256, X25519, HKDF-SHA256 and Ed25519 come from Go's standard and
`golang.org/x/crypto` libraries, external to the repository; they are
modelled as free constructors so that the key-schedule data flow of
`register` (`src/client.go`) is stated exactly. -/

inductive CTerm : Type where
  | lit : List Nat → CTerm
  | concat : CTerm → CTerm → CTerm
  | sha256 : CTerm → CTerm
  | x25519 : CTerm → CTerm → CTerm
  | hkdfExpand : CTerm → CTerm → CTerm → CTerm
  deriving DecidableEq, Repr

/-- ASCII bytes of a string literal, for the HKDF `info` strings. -/
def asciiBytes (s : String) : List Nat :=
  s.data.map Char.toNat

/-- HKDF `info` string for the client-to-server key (`src/client.go` line 180). -/
def infoCS : CTerm := .lit (asciiBytes "client-to-server")

/-- HKDF `info` string for the server-to-client key (`src/client.go` line 179). -/
def infoSC : CTerm := .lit (asciiBytes "server-to-client")

/-! ## AEAD session (`etha-tunnel/handshake/ChaCha20`)

The `ChaCha20.Session` type is referenced by `src/client.go` but its source
file is not under `src/`; it is modelled from the spec (§3, §4.B). -/

/-- Modelled from the spec: a `ChaCha20.Session` — two directional keys, two
64-bit counters, a session id, and the server/client flag (§3 "Session",
`ChaCha20.NewSession` / `Session.SessionId` used by `src/client.go`). -/
structure Session where
  keySend : CTerm
  keyRecv : CTerm
  c2sCounter : Nat
  s2cCounter : Nat
  sessionId : CTerm
  isServer : Bool
  deriving DecidableEq, Repr

/-- Modelled from the spec: `ChaCha20.NewSession(c2sKey, s2cKey, isServer)` —
`is_server` selects which derived key is `send` and which is `recv`
(§3: "`is_server`: boolean that selects which key is `send` vs `recv`";
§4.C: the server assigns `key_send = k_s2c`, the client the opposite);
both counters start at 0. -/
def newSession (c2sKey s2cKey : CTerm) (isServer : Bool) : Session :=
  { keySend := if isServer then s2cKey else c2sKey
    keyRecv := if isServer then c2sKey else s2cKey
    c2sCounter := 0
    s2cCounter := 0
    sessionId := .lit []
    isServer := isServer }

/-- The counter driving this side's `encrypt` (spec §3: `counter_send`). -/
def Session.sendCounter (s : Session) : Nat :=
  if s.isServer then s.s2cCounter else s.c2sCounter

/-- The counter driving this side's `decrypt` (spec §3: `counter_recv`). -/
def Session.recvCounter (s : Session) : Nat :=
  if s.isServer then s.c2sCounter else s.s2cCounter

/-- Modelled from the spec: `Session.CreateAAD(isServerToClient, counter)` —
one direction-tag byte (`0x01` for server→client, `0x00` for client→server)
followed by the 8-byte big-endian counter (§4.B "Associated data"). -/
def createAAD (serverToClient : Bool) (counter : Nat) : List Nat :=
  (if serverToClient then 1 else 0) :: be64 counter

/-- Modelled from the spec: a ChaCha20-Poly1305 sealed ciphertext, kept
symbolic — the key, the 12-byte nonce, the associated data and the plaintext
it binds (§4.B). -/
structure Sealed where
  key : CTerm
  nonce : List Nat
  aad : List Nat
  plaintext : List Nat
  deriving DecidableEq, Repr

/-- Modelled from the spec: the byte length of `ciphertext||tag` is the
plaintext length plus the 16-byte Poly1305 tag (§4.B: "Ciphertext length =
plaintext length + 16"). -/
def Sealed.wireLength (c : Sealed) : Nat :=
  c.plaintext.length + 16

/-- Modelled from the spec: `Session.Encrypt(plaintext, aad)` — seals under
`key_send` with the nonce derived from `counter_send` (§4.B). The counter
advance is performed by the caller in `src/client.go` (line 68). -/
def Session.encrypt (s : Session) (pt : List Nat) (aad : List Nat) : Sealed :=
  { key := s.keySend, nonce := le12 s.sendCounter, aad := aad, plaintext := pt }

/-- Modelled from the spec: `Session.Decrypt(frame, aad)` — opens under
`key_recv` with the nonce derived from `counter_recv`; authentication
succeeds exactly when key, nonce and AAD all match the sealing (§4.B,
§8 boundary: any tamper causes decryption failure). -/
def Session.decrypt (s : Session) (c : Sealed) (aad : List Nat) : Option (List Nat) :=
  if c.key = s.keyRecv ∧ c.nonce = le12 s.recvCounter ∧ c.aad = aad then
    some c.plaintext
  else
    none

/-- Modelled from the spec: the frame an honest sender produces at counter
`c`: sealed with nonce `le12 c` and AAD `createAAD s2c c` (§4.B). -/
def sealFrame (key : CTerm) (s2c : Bool) (c : Nat) (pt : List Nat) : Sealed :=
  { key := key, nonce := le12 c, aad := createAAD s2c c, plaintext := pt }

/-! ## Server runtime (`src/network/router.go`, function `Serve`)

A connected client as the server sees it. `Serve` keys the `sync.Map` by
`conn.RemoteAddr()` (line 80). The inner IP the client declared in its
hello is carried here as ghost data for stating the claims: `Serve` never
reads a ClientHello and never learns it. -/
structure Conn where
  addr : String
  declaredInnerIP : String
  deriving DecidableEq, Repr

/-- The server's client map, `var clients sync.Map`, as an association list
keyed by the remote TCP address. -/
abbrev ClientMap := List (String × Conn)

/-- `clients.Store(conn.RemoteAddr(), conn)` (`router.go` line 80):
overwrites any entry with the same remote address. -/
def storeClient (m : ClientMap) (c : Conn) : ClientMap :=
  (c.addr, c) :: m.filter (fun kv => kv.1 ≠ c.addr)

/-- The accept loop (`router.go` lines 73–82): each accepted connection is
stored in the map keyed by its remote address. -/
def acceptLoop (m : ClientMap) (conns : List Conn) : ClientMap :=
  conns.foldl storeClient m

/-- The TUN-reader goroutine body (`router.go` lines 38–63): one packet read
from the TUN is length-prefixed and written, as is, to EVERY client in the
map (`clients.Range`); a client whose write fails (`writeOk` its address is
`false`) receives nothing and is deleted from the map. Returns the frames
delivered, paired with the receiving address, and the surviving map. -/
def dispatchTunPacket (writeOk : String → Bool) (packet : List Nat) (m : ClientMap) :
    List (String × List Nat) × ClientMap :=
  (m.filterMap (fun kv =>
      if writeOk kv.1 then some (kv.1, be32 packet.length ++ packet) else none),
   m.filter (fun kv => writeOk kv.1))

/-- IPv4 destination address of a packet: header bytes 16–19. Vocabulary for
the statements only; `Serve`'s TUN reader never parses the packet. -/
def ipv4Dest (p : List Nat) : Option (List Nat) :=
  if p.length < 20 then none
  else some [p.getD 16 0, p.getD 17 0, p.getD 18 0, p.getD 19 0]

/-- How `handleClient` (`router.go` lines 85–122) leaves its loop; every
exit path runs the deferred `clients.Delete` / `conn.Close()`. -/
inductive HCExit : Type where
  /-- fewer than 4 bytes left for the length prefix: `io.ReadFull` fails. -/
  | eofAtLengthRead : HCExit
  /-- declared length exceeds 65535: "Packet too large" (lines 103–106). -/
  | tooLarge : Nat → HCExit
  /-- the stream ends inside the declared body: `io.ReadFull` fails. -/
  | shortBody : HCExit
  deriving DecidableEq, Repr

/-- The per-connection reader `handleClient` (`router.go` lines 92–121) on the
byte stream received from one client: repeatedly reads a 4-byte big-endian
length `L`, rejects `L > 65535`, reads `L` bytes and writes them to the TUN.
Returns the packets written to the TUN, in order, and the exit reason. -/
def handleClient (stream : List Nat) : List (List Nat) × HCExit :=
  if h : stream.length < 4 then ([], .eofAtLengthRead)
  else
    let L := be32val (stream.take 4)
    if L > 65535 then ([], .tooLarge L)
    else if stream.length < 4 + L then ([], .shortBody)
    else
      let pkt := (stream.drop 4).take L
      let r := handleClient (stream.drop (4 + L))
      (pkt :: r.1, r.2)
termination_by stream.length
decreasing_by
  simp only [List.length_drop]
  omega

/-! ## Client packet pumps (`src/client.go`, `main`) -/

/-- One iteration of the client's TUN→TCP pump (`src/client.go` lines 53–78):
build the AAD from `C2SCounter` with direction client→server, encrypt,
advance `C2SCounter` by one, and emit the frame — the 4-byte big-endian
length of the ciphertext followed by the ciphertext. Returns the new
session, the declared length, and the sealed payload. -/
def clientTunStep (s : Session) (pkt : List Nat) : Session × Nat × Sealed :=
  let aad := createAAD false s.c2sCounter
  let enc := s.encrypt pkt aad
  ({ s with c2sCounter := s.c2sCounter + 1 }, enc.wireLength, enc)

/-- One iteration of the client's TCP→TUN pump after the frame has been read
(`src/client.go` lines 103–115): build the AAD from `S2CCounter` with
direction server→client, decrypt; on success advance `S2CCounter` by one and
write the plaintext to the TUN; on failure `log.Fatalf` kills the process. -/
def clientRecvStep (s : Session) (frame : Sealed) : Option (Session × List Nat) :=
  match s.decrypt frame (createAAD true s.s2cCounter) with
  | some pt => some ({ s with s2cCounter := s.s2cCounter + 1 }, pt)
  | none => none

/-- The client's TCP→TUN pump over a queue of received frames: processing
stops at the first decryption failure (`log.Fatalf`, `src/client.go`
line 106); the session state at that point is returned together with the
plaintexts written to the TUN. -/
def clientRecvLoop (s : Session) : List Sealed → Session × List (List Nat)
  | [] => (s, [])
  | f :: rest =>
    match clientRecvStep s f with
    | some (s', pt) =>
      let r := clientRecvLoop s' rest
      (r.1, pt :: r.2)
    | none => (s, [])

/-! ## Client handshake (`src/client.go`, function `register`) -/

/-- The parsed ServerHello as `register` consumes it: signature, server
nonce, ephemeral Curve25519 public key, each a symbolic byte string. -/
structure ServerHelloMsg where
  serverSignature : CTerm
  serverNonce : CTerm
  curvePublicKey : CTerm
  deriving DecidableEq, Repr

/-- The client side of the handshake after the ServerHello has been parsed
(`src/client.go` lines 157–196). `verify` is Go's `ed25519.Verify`
(public key, message, signature), kept abstract as a parameter. The
signature is checked over `curve_pub_server || server_nonce || client_nonce`
(line 161); then `shared = X25519(curve_private, curve_pub_server)`,
`salt = SHA-256(server_nonce || client_nonce)`, the two directional keys by
HKDF-SHA256 with infos `"server-to-client"` / `"client-to-server"`, a
session with `is_server = false`, and
`SessionId = SHA-256(shared || salt)`. -/
def register (verify : CTerm → CTerm → CTerm → Bool) (serverEdPub : CTerm)
    (curvePrivate clientNonce : CTerm) (sh : ServerHelloMsg) :
    Except String Session :=
  if ¬ verify serverEdPub
      (.concat (.concat sh.curvePublicKey sh.serverNonce) clientNonce)
      sh.serverSignature then
    .error "server failed signature check"
  else
    let sharedSecret : CTerm := .x25519 curvePrivate sh.curvePublicKey
    let salt : CTerm := .sha256 (.concat sh.serverNonce clientNonce)
    let serverToClientKey : CTerm := .hkdfExpand sharedSecret salt infoSC
    let clientToServerKey : CTerm := .hkdfExpand sharedSecret salt infoCS
    let clientSession := newSession clientToServerKey serverToClientKey false
    .ok { clientSession with sessionId := .sha256 (.concat sharedSecret salt) }

/-! ## Old ClientHello parser (`src/handshake/client/сlientHello.go`) -/

/-- The parsed old-flavor ClientHello (`client.ClientHello`). -/
structure ClientHelloOld where
  ipVersion : Nat
  ipAddressLength : Nat
  ipAddress : List Nat
  publicKey : List Nat
  deriving DecidableEq, Repr

/-- Outcome of `ClientHello.Read`: an error return, an out-of-bounds slice
panic (a Go slice expression `data[a:b]` with `b > len(data)` panics at run
time), or the parsed message. -/
inductive CHReadResult : Type where
  | err : String → CHReadResult
  | panic : CHReadResult
  | ok : ClientHelloOld → CHReadResult
  deriving DecidableEq, Repr

/-- `ClientHello.Read` (`сlientHello.go` lines 16–34), on a fresh receiver so
`m.IpAddressLength = 0` when the length check runs: reject
`len(data) < 2+0+32`; read `ip_version` (reject unless 4 or 6); read
`ip_len = data[1]`; slice `data[2 : 2+ip_len]` as the address and
`data[2+ip_len : 34+ip_len]` as the public key — each slice panics when its
upper bound passes the end of `data`. -/
def clientHelloRead (data : List Nat) : CHReadResult :=
  if data.length < 2 + 0 + 32 then .err "invalid message length"
  else
    let ipVersion := data.getD 0 0
    if ipVersion ≠ 4 ∧ ipVersion ≠ 6 then .err "invalid IP version"
    else
      let ipLen := data.getD 1 0
      if data.length < 2 + ipLen then .panic
      else if data.length < 32 + 2 + ipLen then .panic
      else
        .ok { ipVersion := ipVersion
              ipAddressLength := ipLen
              ipAddress := (data.drop 2).take ipLen
              publicKey := (data.drop (2 + ipLen)).take 32 }

/-! ## ServerHello codec (`src/handshake/ChaCha20/serverHello.go`) -/

/-- `ServerHello.Read` (`serverHello.go` lines 11–21): reject inputs shorter
than 128 bytes; otherwise the fields are `data[:64]`, `data[64:96]`,
`data[96:128]`. -/
def serverHelloRead (data : List Nat) :
    Except String (List Nat × List Nat × List Nat) :=
  if data.length < 128 then .error "invalid data"
  else .ok (data.take 64, (data.drop 64).take 32, (data.drop 96).take 32)

/-- `ServerHello.Write` (`serverHello.go` lines 23–40): reject a signature
not 64 bytes, a nonce not 32 bytes, or a curve public key not 32 bytes;
otherwise emit their concatenation. -/
def serverHelloWrite (signature nonce curvePublicKey : List Nat) :
    Except String (List Nat) :=
  if signature.length ≠ 64 then .error "invalid signature"
  else if nonce.length ≠ 32 then .error "invalid nonce"
  else if curvePublicKey.length ≠ 32 then .error "invalid curve public key"
  else .ok (signature ++ nonce ++ curvePublicKey)

/-! ## Helper lemmas -/

theorem leBytes_inj {k a b : Nat} (ha : a < 256 ^ k) (hb : b < 256 ^ k)
    (h : leBytes k a = leBytes k b) : a = b := by
  induction k generalizing a b with
  | zero =>
    simp only [pow_zero, Nat.lt_one_iff] at ha hb
    omega
  | succ k ih =>
    simp only [leBytes, List.cons.injEq] at h
    have ha' : a / 256 < 256 ^ k := by
      rw [Nat.div_lt_iff_lt_mul (by norm_num)]
      calc a < 256 ^ (k + 1) := ha
        _ = 256 ^ k * 256 := by rw [pow_succ]
    have hb' : b / 256 < 256 ^ k := by
      rw [Nat.div_lt_iff_lt_mul (by norm_num)]
      calc b < 256 ^ (k + 1) := hb
        _ = 256 ^ k * 256 := by rw [pow_succ]
    have hdiv := ih ha' hb' h.2
    have hma := Nat.div_add_mod a 256
    have hmb := Nat.div_add_mod b 256
    omega

theorem le12_inj {a b : Nat} (ha : a < 2 ^ 64) (hb : b < 2 ^ 64)
    (h : le12 a = le12 b) : a = b := by
  have h8 : leBytes 8 a = leBytes 8 b := List.append_cancel_right h
  have hpow : (256 : Nat) ^ 8 = 2 ^ 64 := by norm_num
  exact leBytes_inj (hpow ▸ ha) (hpow ▸ hb) h8

/-! ## The claims -/

/-- Demonstration input for C9: a 34-byte buffer whose declared IP length is
15, so that `ClientHello.Read` slices `data[17:49]` past the end. -/
def c9input : List Nat := 4 :: 15 :: List.replicate 32 0

/-- Claim C9: `ClientHello.Read` should return a message or an error without
out-of-bounds indexing, its minimum-length check accounting for the
`IpAddressLength` byte read from the input. It does not: the check uses the
receiver's zero-initialised `IpAddressLength`, so on a 34-byte input with
`data[1] = 15` the check `len(data) < 2+0+32` passes and the subsequent
slice `data[17:49]` runs past the end of the 34-byte input — a runtime
panic in Go. -/
theorem clientHelloRead_out_of_bounds :
    c9input.length = 34 ∧ c9input.getD 1 0 = 15 ∧
    clientHelloRead c9input = .panic := by decide

/-- Claim C10: for 64/32/32-byte fields, `ServerHello.Write` succeeds with
the 128-byte concatenation and `ServerHello.Read` recovers exactly the three
fields; `Write` rejects any other field length, and `Read` rejects input
shorter than 128 bytes. -/
theorem serverHello_roundtrip (signature nonce curvePublicKey data : List Nat)
    (hs : signature.length = 64) (hn : nonce.length = 32)
    (hc : curvePublicKey.length = 32) (hd : data.length < 128) :
    serverHelloWrite signature nonce curvePublicKey =
      .ok (signature ++ nonce ++ curvePublicKey) ∧
    (signature ++ nonce ++ curvePublicKey).length = 128 ∧
    serverHelloRead (signature ++ nonce ++ curvePublicKey) =
      .ok (signature, nonce, curvePublicKey) ∧
    serverHelloRead data = .error "invalid data" ∧
    (∀ s2 n2 c2 : List Nat,
      s2.length ≠ 64 ∨ n2.length ≠ 32 ∨ c2.length ≠ 32 →
      ∀ out, serverHelloWrite s2 n2 c2 ≠ .ok out) := by
  refine ⟨?_, ?_, ?_, ?_, ?_⟩
  · simp [serverHelloWrite, hs, hn, hc]
  · simp [hs, hn, hc]
  · have hlen : (signature ++ nonce ++ curvePublicKey).length = 128 := by
      simp [hs, hn, hc]
    unfold serverHelloRead
    rw [if_neg (by omega)]
    have h1 : (signature ++ (nonce ++ curvePublicKey)).take 64 = signature := by
      rw [← hs, List.take_left]
    have h2 : (signature ++ (nonce ++ curvePublicKey)).drop 64 =
        nonce ++ curvePublicKey := by
      rw [← hs, List.drop_left]
    have h3 : ((signature ++ nonce) ++ curvePublicKey).drop 96 =
        curvePublicKey := by
      have h96 : (signature ++ nonce).length = 96 := by simp [hs, hn]
      rw [← h96, List.drop_left]
    have h4 : (nonce ++ curvePublicKey).take 32 = nonce := by
      rw [← hn, List.take_left]
    rw [List.append_assoc] at h3
    have h5 : curvePublicKey.take 32 = curvePublicKey := by
      rw [← hc, List.take_length]
    simp only [List.append_assoc, h1, h2, h3, h4, h5]
  · unfold serverHelloRead
    rw [if_pos hd]
  · intro s2 n2 c2 hbad out
    unfold serverHelloWrite
    rcases hbad with h | h | h
    · rw [if_pos h]
      intro hcontra
      exact Except.noConfusion hcontra
    · by_cases hs2 : s2.length ≠ 64
      · rw [if_pos hs2]
        intro hcontra
        exact Except.noConfusion hcontra
      · rw [if_neg hs2, if_pos h]
        intro hcontra
        exact Except.noConfusion hcontra
    · by_cases hs2 : s2.length ≠ 64
      · rw [if_pos hs2]
        intro hcontra
        exact Except.noConfusion hcontra
      · by_cases hn2 : n2.length ≠ 32
        · rw [if_neg hs2, if_pos hn2]
          intro hcontra
          exact Except.noConfusion hcontra
        · rw [if_neg hs2, if_neg hn2, if_pos h]
          intro hcontra
          exact Except.noConfusion hcontra

/-- Witness for C10 at concrete 64/32/32-byte fields and a 3-byte `Read`
input. -/
theorem serverHello_roundtrip_witness :
    (List.replicate 64 7).length = 64 ∧ (List.replicate 32 8).length = 32 ∧
    (List.replicate 32 9).length = 32 ∧ ([0, 1, 2] : List Nat).length < 128 ∧
    (serverHelloWrite (List.replicate 64 7) (List.replicate 32 8)
        (List.replicate 32 9) =
      .ok (List.replicate 64 7 ++ List.replicate 32 8 ++ List.replicate 32 9) ∧
    (List.replicate 64 7 ++ List.replicate 32 8 ++
        List.replicate 32 9).length = 128 ∧
    serverHelloRead (List.replicate 64 7 ++ List.replicate 32 8 ++
        List.replicate 32 9) =
      .ok (List.replicate 64 7, List.replicate 32 8, List.replicate 32 9) ∧
    serverHelloRead [0, 1, 2] = .error "invalid data" ∧
    (∀ s2 n2 c2 : List Nat,
      s2.length ≠ 64 ∨ n2.length ≠ 32 ∨ c2.length ≠ 32 →
      ∀ out, serverHelloWrite s2 n2 c2 ≠ .ok out)) :=
  ⟨by decide, by decide, by decide, by decide,
   serverHello_roundtrip (List.replicate 64 7) (List.replicate 32 8)
     (List.replicate 32 9) [0, 1, 2] (by decide) (by decide) (by decide)
     (by decide)⟩

/-- Demonstration input for C7: a well-formed old-flavor ClientHello with
`ip_version = 6` (36 bytes: version, length 2, 2 address bytes, 32 key
bytes). -/
def c7input : List Nat := 6 :: 2 :: List.replicate 34 0

/-- Counterexample to claim C7 as stated: `ClientHello.Read` accepts
`ip_version = 6` — it rejects only versions that are neither 4 nor 6
(`сlientHello.go` line 23), so a version-6 hello parses successfully
instead of being rejected. -/
theorem clientHelloRead_accepts_version6 :
    c7input.getD 0 0 = 6 ∧
    clientHelloRead c7input =
      .ok { ipVersion := 6, ipAddressLength := 2, ipAddress := [0, 0],
            publicKey := List.replicate 32 0 } := by decide

/-- Claim C7 (amended): `ClientHello.Read` rejects a message whose
`ip_version` byte is neither 4 nor 6; version 6 is accepted as well as
version 4. -/
theorem clientHelloRead_version_check (data : List Nat)
    (h4 : data.getD 0 0 ≠ 4) (h6 : data.getD 0 0 ≠ 6) :
    clientHelloRead data = .err "invalid message length" ∨
    clientHelloRead data = .err "invalid IP version" := by
  unfold clientHelloRead
  by_cases hlen : data.length < 2 + 0 + 32
  · rw [if_pos hlen]
    left
    rfl
  · rw [if_neg hlen, if_pos ⟨h4, h6⟩]
    right
    rfl

/-- Witness for the amended C7 at the concrete input `[5]`. -/
theorem clientHelloRead_version_check_witness :
    ([5] : List Nat).getD 0 0 ≠ 4 ∧ ([5] : List Nat).getD 0 0 ≠ 6 ∧
    (clientHelloRead [5] = .err "invalid message length" ∨
     clientHelloRead [5] = .err "invalid IP version") :=
  ⟨by decide, by decide, clientHelloRead_version_check [5] (by decide) (by decide)⟩

/-- Claim C6: when the client's configured server Ed25519 public key does
not verify `server_signature` over
`curve25519_public_key_server || server_nonce || client_nonce`, `register`
returns an error before any session is constructed — the handshake aborts
and no session id is produced (`src/client.go` lines 157–163). -/
theorem register_bad_signature_aborts (verify : CTerm → CTerm → CTerm → Bool)
    (serverEdPub curvePrivate clientNonce : CTerm) (sh : ServerHelloMsg)
    (h : verify serverEdPub
        (.concat (.concat sh.curvePublicKey sh.serverNonce) clientNonce)
        sh.serverSignature = false) :
    register verify serverEdPub curvePrivate clientNonce sh =
      .error "server failed signature check" := by
  simp [register, h]

/-- Witness for C6: an oracle that rejects every signature. -/
theorem register_bad_signature_aborts_witness :
    (fun _ _ _ => false : CTerm → CTerm → CTerm → Bool) (.lit [0])
      (.concat (.concat (.lit [12]) (.lit [11])) (.lit [2])) (.lit [10]) =
      false ∧
    register (fun _ _ _ => false) (.lit [0]) (.lit [1]) (.lit [2])
      { serverSignature := .lit [10], serverNonce := .lit [11],
        curvePublicKey := .lit [12] } =
      .error "server failed signature check" :=
  ⟨rfl, register_bad_signature_aborts (fun _ _ _ => false) (.lit [0]) (.lit [1])
    (.lit [2])
    { serverSignature := .lit [10], serverNonce := .lit [11],
      curvePublicKey := .lit [12] } rfl⟩

/-- Claim C4: a successful client handshake derives
`salt = SHA-256(server_nonce || client_nonce)`, the directional keys by
HKDF-SHA256 with `ikm` the X25519 shared secret and infos
`"client-to-server"` / `"server-to-client"`,
`session_id = SHA-256(shared || salt)`, and assigns
`key_send = k_c2s`, `key_recv = k_s2c` with both counters 0
(`src/client.go` lines 177–196). -/
theorem register_key_schedule (verify : CTerm → CTerm → CTerm → Bool)
    (serverEdPub curvePrivate clientNonce : CTerm) (sh : ServerHelloMsg)
    (sess : Session)
    (h : register verify serverEdPub curvePrivate clientNonce sh = .ok sess) :
    sess.keySend = .hkdfExpand (.x25519 curvePrivate sh.curvePublicKey)
        (.sha256 (.concat sh.serverNonce clientNonce)) infoCS ∧
    sess.keyRecv = .hkdfExpand (.x25519 curvePrivate sh.curvePublicKey)
        (.sha256 (.concat sh.serverNonce clientNonce)) infoSC ∧
    sess.sessionId = .sha256 (.concat
        (.x25519 curvePrivate sh.curvePublicKey)
        (.sha256 (.concat sh.serverNonce clientNonce))) ∧
    sess.isServer = false ∧ sess.c2sCounter = 0 ∧ sess.s2cCounter = 0 := by
  simp only [register] at h
  split at h
  · exact Except.noConfusion h
  · injection h with h'
    subst h'
    simp [newSession]

/-- Witness for C4 at a concrete handshake transcript with an
always-accepting verification oracle. -/
theorem register_key_schedule_witness :
    register (fun _ _ _ => true) (.lit [0]) (.lit [1]) (.lit [2])
      { serverSignature := .lit [10], serverNonce := .lit [11],
        curvePublicKey := .lit [12] } =
      .ok { keySend := .hkdfExpand (.x25519 (.lit [1]) (.lit [12]))
                (.sha256 (.concat (.lit [11]) (.lit [2]))) infoCS,
            keyRecv := .hkdfExpand (.x25519 (.lit [1]) (.lit [12]))
                (.sha256 (.concat (.lit [11]) (.lit [2]))) infoSC,
            c2sCounter := 0, s2cCounter := 0,
            sessionId := .sha256 (.concat (.x25519 (.lit [1]) (.lit [12]))
                (.sha256 (.concat (.lit [11]) (.lit [2])))),
            isServer := false } ∧
    ({ keySend := .hkdfExpand (.x25519 (.lit [1]) (.lit [12]))
          (.sha256 (.concat (.lit [11]) (.lit [2]))) infoCS,
       keyRecv := .hkdfExpand (.x25519 (.lit [1]) (.lit [12]))
          (.sha256 (.concat (.lit [11]) (.lit [2]))) infoSC,
       c2sCounter := 0, s2cCounter := 0,
       sessionId := .sha256 (.concat (.x25519 (.lit [1]) (.lit [12]))
          (.sha256 (.concat (.lit [11]) (.lit [2])))),
       isServer := false } : Session).keySend =
        .hkdfExpand (.x25519 (.lit [1]) (.lit [12]))
          (.sha256 (.concat (.lit [11]) (.lit [2]))) infoCS ∧
    ({ keySend := .hkdfExpand (.x25519 (.lit [1]) (.lit [12]))
          (.sha256 (.concat (.lit [11]) (.lit [2]))) infoCS,
       keyRecv := .hkdfExpand (.x25519 (.lit [1]) (.lit [12]))
          (.sha256 (.concat (.lit [11]) (.lit [2]))) infoSC,
       c2sCounter := 0, s2cCounter := 0,
       sessionId := .sha256 (.concat (.x25519 (.lit [1]) (.lit [12]))
          (.sha256 (.concat (.lit [11]) (.lit [2])))),
       isServer := false } : Session).isServer = false :=
  ⟨by rfl,
   (register_key_schedule (fun _ _ _ => true) (.lit [0]) (.lit [1]) (.lit [2])
      { serverSignature := .lit [10], serverNonce := .lit [11],
        curvePublicKey := .lit [12] } _ (by rfl)).1,
   (register_key_schedule (fun _ _ _ => true) (.lit [0]) (.lit [1]) (.lit [2])
      { serverSignature := .lit [10], serverNonce := .lit [11],
        curvePublicKey := .lit [12] } _ (by rfl)).2.2.2.1⟩

/-- Demonstration input for C5: a zero-length frame followed by a 1-byte
frame carrying `42`. -/
def c5stream : List Nat := [0, 0, 0, 0, 0, 0, 0, 1, 42]

/-- Counterexample to claim C5 as stated: a declared length of 0 is NOT
rejected by `handleClient` (`router.go` checks only `length > 65535`,
line 103): on the stream `[0,0,0,0, 0,0,0,1, 42]` the zero-length frame is
accepted, an empty packet is written to the TUN, and the connection stays
open — the following frame is still processed. -/
theorem handleClient_zero_length_accepted :
    be32val (c5stream.take 4) = 0 ∧
    handleClient c5stream = ([[], [42]], .eofAtLengthRead) := by
  constructor
  · decide
  · rw [handleClient.eq_def]
    norm_num [c5stream, be32val]
    rw [handleClient.eq_def]
    norm_num [be32val]
    rw [handleClient.eq_def]
    norm_num

/-- Claim C5 (amended): a declared length prefix `L > 65535` is a fatal
protocol error — `handleClient` returns (closing the connection) with no
packet written to the TUN; a declared length of 0, however, is accepted:
the empty packet is written to the TUN and processing continues. -/
theorem handleClient_length_check (stream : List Nat)
    (h4 : 4 ≤ stream.length) (hL : 65535 < be32val (stream.take 4)) :
    handleClient stream = ([], .tooLarge (be32val (stream.take 4))) := by
  rw [handleClient.eq_def]
  rw [dif_neg (by omega)]
  simp only []
  rw [if_pos hL]

/-- Witness for the amended C5 at the frame of spec scenario 6: length
prefix `0x00010000` (65536). -/
theorem handleClient_length_check_witness :
    4 ≤ ([0, 1, 0, 0] : List Nat).length ∧
    65535 < be32val (([0, 1, 0, 0] : List Nat).take 4) ∧
    handleClient [0, 1, 0, 0] =
      ([], .tooLarge (be32val (([0, 1, 0, 0] : List Nat).take 4))) :=
  ⟨by decide, by decide,
   handleClient_length_check [0, 1, 0, 0] (by decide) (by decide)⟩

/-- Demonstration client session for C3. -/
def c3session : Session :=
  { keySend := .lit [1], keyRecv := .lit [2], c2sCounter := 0,
    s2cCounter := 0, sessionId := .lit [], isServer := false }

/-- Claim C3: on the client's TCP→TUN pump, a frame honestly sealed at
sender counter `c` decrypts successfully only when the receiver's
`counter_recv` (`S2CCounter`) equals `c`; after a successful decrypt the
counter advances by exactly 1 and the plaintext is recovered; after a
failed decrypt the counter is unchanged and no further frames are processed
(`log.Fatalf`, `src/client.go` lines 103–109). -/
theorem clientRecv_counter_discipline (s : Session) (hs : s.isServer = false)
    (key : CTerm) (c : Nat) (pt : List Nat) (rest : List Sealed)
    (hc : c < 2 ^ 64) (hr : s.s2cCounter < 2 ^ 64) :
    (∀ s' out, clientRecvStep s (sealFrame key true c pt) = some (s', out) →
      c = s.s2cCounter ∧ s'.s2cCounter = s.s2cCounter + 1 ∧ out = pt) ∧
    (∀ f : Sealed, clientRecvStep s f = none →
      clientRecvLoop s (f :: rest) = (s, [])) := by
  constructor
  · intro s' out h
    unfold clientRecvStep at h
    cases hd : Session.decrypt s (sealFrame key true c pt)
        (createAAD true s.s2cCounter) with
    | none =>
      rw [hd] at h
      exact Option.noConfusion h
    | some pt' =>
      rw [hd] at h
      unfold Session.decrypt at hd
      split at hd
      case isTrue hcond =>
        have hnonce : le12 c = le12 s.s2cCounter := by
          have := hcond.2.1
          simpa [sealFrame, Session.recvCounter, hs] using this
        have hceq : c = s.s2cCounter := le12_inj hc hr hnonce
        injection hd with hd'
        injection h with h'
        rw [Prod.mk.injEq] at h'
        refine ⟨hceq, ?_, ?_⟩
        · rw [← h'.1]
        · rw [← h'.2, ← hd']
          rfl
      case isFalse => exact Option.noConfusion hd
  · intro f h
    simp [clientRecvLoop, h]

/-- Witness for C3 at a concrete client session with both counters 0. -/
theorem clientRecv_counter_discipline_witness :
    c3session.isServer = false ∧ (0 : Nat) < 2 ^ 64 ∧
    c3session.s2cCounter < 2 ^ 64 ∧
    ((∀ s' out,
        clientRecvStep c3session (sealFrame (.lit [2]) true 0 [7]) =
          some (s', out) →
        0 = c3session.s2cCounter ∧
        s'.s2cCounter = c3session.s2cCounter + 1 ∧ out = [7]) ∧
     (∀ f : Sealed, clientRecvStep c3session f = none →
        clientRecvLoop c3session (f :: []) = (c3session, []))) :=
  ⟨rfl, by norm_num, by norm_num [c3session],
   clientRecv_counter_discipline c3session rfl (.lit [2]) 0 [7] []
     (by norm_num) (by norm_num [c3session])⟩

/-- Demonstration data for C1: a 20-byte IPv4 packet with destination
`10.0.0.3`, and two connected clients that declared inner IPs `10.0.0.2`
and `10.0.0.3`. -/
def c1packet : List Nat :=
  [69, 0, 0, 20, 0, 0, 0, 0, 64, 1, 0, 0, 10, 0, 0, 2, 10, 0, 0, 3]

/-- First connected client for C1, declared inner IP `10.0.0.2`. -/
def c1conn2 : Conn := { addr := "203.0.113.5:40000", declaredInnerIP := "10.0.0.2" }

/-- Second connected client for C1, declared inner IP `10.0.0.3`. -/
def c1conn3 : Conn := { addr := "203.0.113.6:40001", declaredInnerIP := "10.0.0.3" }

/-- The server's client map for C1, holding both connections. -/
def c1map : ClientMap := [(c1conn2.addr, c1conn2), (c1conn3.addr, c1conn3)]

/-- Counterexample to claim C1 as stated: the TUN-reader in `Serve` performs
no destination lookup — a packet destined for `10.0.0.3` is written,
unencrypted, to BOTH connected clients, including the one that declared
`10.0.0.2`, which the claim says must receive nothing. -/
theorem dispatch_broadcast_counterexample :
    ipv4Dest c1packet = some [10, 0, 0, 3] ∧
    c1conn2.declaredInnerIP = "10.0.0.2" ∧
    c1conn3.declaredInnerIP = "10.0.0.3" ∧
    (dispatchTunPacket (fun _ => true) c1packet c1map).1 =
      [(c1conn2.addr, be32 20 ++ c1packet),
       (c1conn3.addr, be32 20 ++ c1packet)] := by decide

/-- Claim C1 (amended): the TUN-reader in `Serve` delivers every packet read
from the TUN to EVERY client in the map whose socket write succeeds, as the
plaintext packet behind a 4-byte length prefix — no mapping lookup on the
destination IP and no encryption take place; a client whose write fails
receives no frame and is removed from the map, the rest survive. -/
theorem dispatch_sends_to_all (writeOk : String → Bool) (packet : List Nat)
    (m : ClientMap) (kv : String × Conn) (hkv : kv ∈ m) :
    (writeOk kv.1 = true →
      (kv.1, be32 packet.length ++ packet) ∈
        (dispatchTunPacket writeOk packet m).1 ∧
      kv ∈ (dispatchTunPacket writeOk packet m).2) ∧
    (writeOk kv.1 = false →
      (∀ e ∈ (dispatchTunPacket writeOk packet m).1, e.1 ≠ kv.1) ∧
      kv ∉ (dispatchTunPacket writeOk packet m).2) ∧
    (∀ e ∈ (dispatchTunPacket writeOk packet m).1,
      e.2 = be32 packet.length ++ packet) := by
  refine ⟨?_, ?_, ?_⟩
  · intro hok
    constructor
    · simp only [dispatchTunPacket, List.mem_filterMap]
      exact ⟨kv, hkv, by simp [hok]⟩
    · simp only [dispatchTunPacket, List.mem_filter]
      exact ⟨hkv, by simp [hok]⟩
  · intro hfail
    constructor
    · intro e he
      simp only [dispatchTunPacket, List.mem_filterMap] at he
      obtain ⟨a, _, hf⟩ := he
      split at hf
      case isTrue hw =>
        injection hf with hf'
        intro hcontra
        rw [← hf'] at hcontra
        rw [hcontra] at hw
        rw [hfail] at hw
        exact Bool.noConfusion hw
      case isFalse => exact Option.noConfusion hf
    · simp only [dispatchTunPacket, List.mem_filter]
      rintro ⟨-, hw⟩
      rw [hfail] at hw
      exact Bool.noConfusion hw
  · intro e he
    simp only [dispatchTunPacket, List.mem_filterMap] at he
    obtain ⟨a, _, hf⟩ := he
    split at hf
    · injection hf with hf'
      rw [← hf']
    · exact Option.noConfusion hf

/-- Surviving client for the C1 witness. -/
def c1wconnA : Conn := { addr := "a", declaredInnerIP := "10.0.0.7" }

/-- Client whose socket write fails in the C1 witness. -/
def c1wconnB : Conn := { addr := "b", declaredInnerIP := "10.0.0.8" }

/-- Client map for the C1 witness. -/
def c1wmap : ClientMap := [("a", c1wconnA), ("b", c1wconnB)]

/-- Write oracle for the C1 witness: the write to `"b"` fails. -/
def c1wOk : String → Bool := fun a => !(a == "b")

/-- Witness for the amended C1: a two-client map whose second client's
write fails. -/
theorem dispatch_sends_to_all_witness :
    ("b", c1wconnB) ∈ c1wmap ∧
    ((c1wOk "b" = true →
      ("b", be32 ([5] : List Nat).length ++ [5]) ∈
        (dispatchTunPacket c1wOk [5] c1wmap).1 ∧
      ("b", c1wconnB) ∈ (dispatchTunPacket c1wOk [5] c1wmap).2) ∧
    (c1wOk "b" = false →
      (∀ e ∈ (dispatchTunPacket c1wOk [5] c1wmap).1, e.1 ≠ "b") ∧
      ("b", c1wconnB) ∉ (dispatchTunPacket c1wOk [5] c1wmap).2) ∧
    (∀ e ∈ (dispatchTunPacket c1wOk [5] c1wmap).1,
      e.2 = be32 ([5] : List Nat).length ++ [5])) :=
  ⟨by decide,
   dispatch_sends_to_all c1wOk [5] c1wmap ("b", c1wconnB) (by decide)⟩

/-- Demonstration data for C2: an 84-byte inner packet and a single
connected client. -/
def c2packet : List Nat := List.replicate 84 0

/-- The single connected client for C2. -/
def c2conn : Conn := { addr := "198.51.100.7:51000", declaredInnerIP := "10.0.0.2" }

/-- The server's client map for C2. -/
def c2map : ClientMap := [(c2conn.addr, c2conn)]

/-- Counterexample to claim C2 as stated: the server's TUN-reader emits the
84-byte inner packet with a declared length of 84 and the raw packet as
payload — not an AEAD sealing of length 100. -/
theorem serverFrame_plaintext_counterexample :
    c2packet.length = 84 ∧
    (dispatchTunPacket (fun _ => true) c2packet c2map).1 =
      [(c2conn.addr, be32 84 ++ c2packet)] ∧
    (be32 84 ++ c2packet).length = 4 + 84 ∧ (84 : Nat) ≠ 84 + 16 := by decide

/-- Claim C2 (amended): a frame emitted by the client's TUN→TCP pump carries
an AEAD sealing of the inner packet and declares ciphertext length
`plaintext length + 16` (an 84-byte packet yields a declared length of
100); a frame emitted by the server's TUN-reader instead carries the raw
packet with declared length equal to the packet length. -/
theorem frame_payload_lengths (s : Session) (pkt : List Nat)
    (writeOk : String → Bool) (m : ClientMap) (e : String × List Nat)
    (he : e ∈ (dispatchTunPacket writeOk pkt m).1) :
    (clientTunStep s pkt).2.1 = pkt.length + 16 ∧
    (clientTunStep s pkt).2.2 = s.encrypt pkt (createAAD false s.c2sCounter) ∧
    e.2 = be32 pkt.length ++ pkt := by
  refine ⟨rfl, rfl, ?_⟩
  simp only [dispatchTunPacket, List.mem_filterMap] at he
  obtain ⟨a, _, hf⟩ := he
  split at hf
  · injection hf with hf'
    rw [← hf']
  · exact Option.noConfusion hf

/-- Demonstration session for the C2 witness. -/
def c2session : Session :=
  { keySend := .lit [1], keyRecv := .lit [2], c2sCounter := 0,
    s2cCounter := 0, sessionId := .lit [], isServer := false }

/-- Demonstration 84-byte packet for the C2 witness. -/
def c2wpacket : List Nat := List.replicate 84 3

/-- Demonstration client map for the C2 witness. -/
def c2wmap : ClientMap := [("h", { addr := "h", declaredInnerIP := "10.0.0.4" })]

/-- Witness for the amended C2 at a concrete session, 84-byte packet and
singleton client map. -/
theorem frame_payload_lengths_witness :
    ("h", be32 c2wpacket.length ++ c2wpacket) ∈
      (dispatchTunPacket (fun _ => true) c2wpacket c2wmap).1 ∧
    ((clientTunStep c2session c2wpacket).2.1 = c2wpacket.length + 16 ∧
     (clientTunStep c2session c2wpacket).2.2 =
       c2session.encrypt c2wpacket (createAAD false c2session.c2sCounter) ∧
     ("h", be32 c2wpacket.length ++ c2wpacket).2 =
       be32 c2wpacket.length ++ c2wpacket) :=
  ⟨by decide,
   frame_payload_lengths c2session c2wpacket (fun _ => true) c2wmap
     ("h", be32 c2wpacket.length ++ c2wpacket) (by decide)⟩

/-- First connection for C8, declared inner IP `10.0.0.2`. -/
def c8connA : Conn := { addr := "203.0.113.5:42000", declaredInnerIP := "10.0.0.2" }

/-- Second connection for C8: a different remote address declaring the SAME
inner IP `10.0.0.2`. -/
def c8connB : Conn := { addr := "203.0.113.9:43000", declaredInnerIP := "10.0.0.2" }

/-- Counterexample to claim C8 as stated: `Serve` keys its map by the remote
TCP address and performs no handshake, so two connections declaring the same
inner IP `10.0.0.2` coexist — after both are accepted the map holds two
entries whose declared inner IPs are equal; no eviction takes place. -/
theorem duplicate_inner_ip_coexists :
    c8connA.declaredInnerIP = c8connB.declaredInnerIP ∧
    acceptLoop [] [c8connA, c8connB] =
      [(c8connB.addr, c8connB), (c8connA.addr, c8connA)] ∧
    ((acceptLoop [] [c8connA, c8connB]).filter
      (fun kv => kv.2.declaredInnerIP = "10.0.0.2")).length = 2 := by decide

/-- Claim C8 (amended): the server's dispatch map is keyed by the remote TCP
address, not the inner IP: `Store` keeps at most one entry per remote
address (a second `Store` for the same address evicts the prior entry),
preserves key uniqueness, and leaves entries with other remote addresses in
place — entries with equal declared inner IPs but distinct remote addresses
coexist. -/
theorem storeClient_keyed_by_remote_addr (m : ClientMap) (c : Conn)
    (hnd : (m.map Prod.fst).Nodup) :
    ((storeClient m c).map Prod.fst).Nodup ∧
    (storeClient m c).filter (fun kv => kv.1 = c.addr) = [(c.addr, c)] ∧
    (∀ kv ∈ m, kv.1 ≠ c.addr → kv ∈ storeClient m c) := by
  refine ⟨?_, ?_, ?_⟩
  · simp only [storeClient, List.map_cons]
    rw [List.nodup_cons]
    constructor
    · simp only [List.mem_map]
      rintro ⟨kv, hkv, hfst⟩
      rw [List.mem_filter] at hkv
      have : kv.1 ≠ c.addr := by simpa using hkv.2
      exact this hfst
    · exact hnd.sublist ((List.filter_sublist m).map Prod.fst)
  · simp only [storeClient, List.filter_cons]
    rw [if_pos (by simp)]
    have : (m.filter (fun kv => kv.1 ≠ c.addr)).filter
        (fun kv => kv.1 = c.addr) = [] := by
      rw [List.filter_filter]
      apply List.filter_eq_nil_iff.mpr
      intro a _
      by_cases ha : a.1 = c.addr <;> simp [ha]
    rw [this]
  · intro kv hkv hne
    simp only [storeClient, List.mem_cons, List.mem_filter]
    right
    exact ⟨hkv, by simpa using hne⟩

/-- Witness for the amended C8 at a two-entry map. -/
theorem storeClient_keyed_by_remote_addr_witness :
    ((([("b", { addr := "b", declaredInnerIP := "10.0.0.2" })] : ClientMap).map
      Prod.fst).Nodup) ∧
    (((storeClient [("b", { addr := "b", declaredInnerIP := "10.0.0.2" })]
        { addr := "a", declaredInnerIP := "10.0.0.2" }).map Prod.fst).Nodup ∧
    (storeClient [("b", { addr := "b", declaredInnerIP := "10.0.0.2" })]
        { addr := "a", declaredInnerIP := "10.0.0.2" }).filter
        (fun kv => kv.1 = ({ addr := "a", declaredInnerIP := "10.0.0.2" } : Conn).addr) =
      [(({ addr := "a", declaredInnerIP := "10.0.0.2" } : Conn).addr,
        { addr := "a", declaredInnerIP := "10.0.0.2" })] ∧
    (∀ kv ∈ ([("b", { addr := "b", declaredInnerIP := "10.0.0.2" })] : ClientMap),
      kv.1 ≠ ({ addr := "a", declaredInnerIP := "10.0.0.2" } : Conn).addr →
      kv ∈ storeClient [("b", { addr := "b", declaredInnerIP := "10.0.0.2" })]
        { addr := "a", declaredInnerIP := "10.0.0.2" })) :=
  ⟨by decide,
   storeClient_keyed_by_remote_addr
     [("b", { addr := "b", declaredInnerIP := "10.0.0.2" })]
     { addr := "a", declaredInnerIP := "10.0.0.2" } (by decide)⟩

end EthaTunnel
